import Mathlib

/-!
Verification of the Dharma-Setu frontend core: a shallow embedding of the
citation resolver, entity classifier, graph-snapshot builder, focus effect,
render-opacity policy and shared click-state handler, together with proofs
of the behavioural properties claimed for them.

Sources embedded:
- `src/frontend/src/components/KnowledgeGraph.tsx` (`getNodeType`, `graphData`,
  the auto-focus effect, `nodeCanvasObject` opacity logic, `handleNodeClick`,
  and the `DraftEditor.getProcessedText` resolver in the same file)
- `src/frontend/src/components/DraftingPanel.tsx` (`getProcessedText`, identical
  algorithm)
- `src/frontend/src/app/page.tsx` (`handleSubmit` response handling)
- the zustand store (`useAppStore`).

JavaScript numbers are modelled as `ℚ` (no claim depends on floating-point
rounding); optional / possibly-`undefined` JSON fields are modelled as `Option`.
-/

set_option autoImplicit false
set_option maxRecDepth 4000

namespace DharmaSetu

/-! ## String helpers: JS `String.prototype.includes` and `\b` word classes -/

/-- A JS regex word-class character (`\w`): ASCII letter, digit or underscore. -/
def isWordChar (c : Char) : Bool := c.isAlphanum || c == '_'

/-- Word-class test on an optional character; a missing character (string
boundary) counts as non-word, matching JS `\b` semantics. -/
def optWord : Option Char → Bool
  | some c => isWordChar c
  | none => false

/-- Substring containment on character lists (JS `hay.includes(needle)`).
An empty needle is contained in every list. -/
def subList (needle : List Char) : List Char → Bool
  | [] => needle.isEmpty
  | c :: cs => needle.isPrefixOf (c :: cs) || subList needle cs

/-- JS `hay.includes(needle)`. -/
def strIncludes (hay needle : String) : Bool := subList needle.data hay.data

/-- `label.toLowerCase()` (ASCII, the only case the markers exercise),
written over the character list so it reduces in the kernel. -/
def toLowerStr (s : String) : String := String.mk (s.data.map Char.toLower)

/-! ## Entity Classifier (`getNodeType` in KnowledgeGraph.tsx) -/

inductive NodeType where
  | law
  | section'
  | case'
  | concept
  deriving Repr, DecidableEq

/-- `getNodeType` from KnowledgeGraph.tsx: lower-cases the label and applies
case-insensitive substring tests in fixed order, first match winning. -/
def getNodeType (label : String) : NodeType :=
  let lower := toLowerStr label
  if strIncludes lower "act" || strIncludes lower "code" || strIncludes lower "bns" ||
      strIncludes lower "constitution" || strIncludes lower "bharatiya" then NodeType.law
  else if strIncludes lower "section" || strIncludes lower "article" ||
      strIncludes lower "order" || strIncludes lower "rule" ||
      strIncludes lower "part" then NodeType.section'
  else if strIncludes lower " v. " || strIncludes lower " vs " then NodeType.case'
  else NodeType.concept

/-- The five `law` markers tested by `getNodeType`, in test order. -/
def lawMarkers : List String := ["act", "code", "bns", "constitution", "bharatiya"]

/-- The five `section` markers tested by `getNodeType`, in test order. -/
def sectionMarkers : List String := ["section", "article", "order", "rule", "part"]

/-- The two `case` separators tested by `getNodeType`, in test order. -/
def caseMarkers : List String := [" v. ", " vs "]

/-! ## Citation Resolver (`getProcessedText` in DraftingPanel.tsx /
KnowledgeGraph.tsx's DraftEditor) -/

/-- A citation as delivered by the backing service. -/
structure Citation where
  uuid : String
  text : String
  entity_name : Option String
  source_doc : String
  page_number : ℚ
  summary : String
  score : ℚ
  law_type : String
  deriving Repr, DecidableEq

/-- One `citations.forEach` step of building `uniqueMap`: a citation with a
truthy (present, non-empty) `entity_name` inserts `entity_name -> uuid` only
when the key is absent. JS `Map` preserves insertion order, modelled by
appending. -/
def insertEntity (m : List (String × String)) (c : Citation) : List (String × String) :=
  match c.entity_name with
  | some name => if name != "" && (m.lookup name).isNone then m ++ [(name, c.uuid)] else m
  | none => m

/-- The `uniqueMap` built by `getProcessedText`. -/
def buildEntityMap (citations : List Citation) : List (String × String) :=
  citations.foldl insertEntity []

/-- Stable insert used to model the JS stable sort by descending length:
`x` goes after every element at least as long as it. -/
def insertByLenDesc (x : String) : List String → List String
  | [] => [x]
  | y :: ys => if x.length ≤ y.length then y :: insertByLenDesc x ys else x :: y :: ys

/-- `Array.from(uniqueMap.keys()).sort((a, b) => b.length - a.length)`:
stable sort of the keys by descending character length. -/
def sortByLenDesc (l : List String) : List String :=
  l.foldl (fun acc x => insertByLenDesc x acc) []

/-- Whether the literal pattern `ent` matches at the start of `s` under the
regex `\b(ent)\b`, where `prev` is the character of the subject string
immediately before this position (none at the start of the subject). -/
def matchesAt (ent : List Char) (prev : Option Char) (s : List Char) : Bool :=
  ent.isPrefixOf s && (optWord prev != optWord ent.head?) &&
    (optWord ent.getLast? != optWord (s.drop ent.length).head?)

/-- Fuel-indexed scan underlying `replaceWW`. Each step consumes at least one
subject character and exactly one unit of fuel, so fuel equal to the subject
length always suffices; the fuel-exhausted row is unreachable from
`replaceWW` and merely keeps the recursion structural (hence kernel-reducible). -/
def replaceWWFuel (ent repl : List Char) : Nat → Option Char → List Char → List Char
  | _, _, [] => []
  | 0, _, s => s
  | fuel + 1, prev, c :: cs =>
    if ent.length > 0 && matchesAt ent prev (c :: cs) then
      repl ++ replaceWWFuel ent repl fuel ent.getLast? ((c :: cs).drop ent.length)
    else
      c :: replaceWWFuel ent repl fuel (some c) cs

/-- One global-replace pass of `text.replace(/\b(ent)\b/g, "[$1](uuid)")`:
scan the subject left to right, replacing each non-overlapping whole-word
occurrence of `ent` by `repl`; the scan continues in the original subject
after each match (the inserted replacement is never rescanned in this pass). -/
def replaceWW (ent repl : List Char) (prev : Option Char) (s : List Char) : List Char :=
  replaceWWFuel ent repl s.length prev s

/-- One `entities.forEach` step of `getProcessedText`: replace every
whole-word occurrence of `ent` in `t` by `[ent](uuid)`. (`escapeRegExp`
makes the pattern match `ent` literally, so it is modelled as literal
matching. Entity names reaching this point are never empty; the guard keeps
the function total.) -/
def replaceEntity (t : String) (ent uuid : String) : String :=
  if ent.data.isEmpty then t
  else String.mk (replaceWW ent.data ("[" ++ ent ++ "](" ++ uuid ++ ")").data none t.data)

/-- `getProcessedText` from DraftingPanel.tsx: build the first-wins entity
map, sort the distinct names by descending length, then sequentially replace
each name's whole-word occurrences in the current text. -/
def getProcessedText (draft : String) (citations : List Citation) : String :=
  if draft = "" then ""
  else
    let uniqueMap := buildEntityMap citations
    let entities := sortByLenDesc (uniqueMap.map Prod.fst)
    entities.foldl
      (fun t ent =>
        match uniqueMap.lookup ent with
        | some uuid => replaceEntity t ent uuid
        | none => t)
      draft

/-! ## Graph Model (`graphData` in KnowledgeGraph.tsx)

The raw payload arrives as JSON from the `/ask` service: any field can be
missing at runtime, so `id` and `label` are modelled as `Option` even though
the TypeScript interface declares them required. -/

structure RawNodeMetadata where
  tooltip : Option String
  is_cited : Option Bool
  deriving Repr, DecidableEq

structure RawNode where
  id : Option String
  label : Option String
  type : Option String
  citation_uuid : Option String
  x : Option ℚ
  y : Option ℚ
  metadata : Option RawNodeMetadata
  deriving Repr, DecidableEq

structure RawEdge where
  source : String
  target : String
  relation : String
  label : Option String
  deriving Repr, DecidableEq

/-- A graph payload (`stats` is ignored by the builder and omitted). -/
structure RawPayload where
  nodes : List RawNode
  edges : List RawEdge
  deriving Repr, DecidableEq

/-- A node of the built snapshot handed to the force-graph renderer. -/
structure BuiltNode where
  id : Option String
  name : String
  type : NodeType
  citationUuid : Option String
  tooltip : Option String
  isCited : Option Bool
  deriving Repr, DecidableEq

/-- A link of the built snapshot. -/
structure BuiltLink where
  source : String
  target : String
  label : String
  deriving Repr, DecidableEq

structure BuiltGraph where
  nodes : List BuiltNode
  links : List BuiltLink
  deriving Repr, DecidableEq

/-- The per-node transform inside `data.nodes.map(...)`. A node whose `label`
is missing makes `getNodeType(node.label)` call `toLowerCase` on `undefined`,
an uncaught TypeError, modelled as `Except.error`; everything else is passed
through (`id` verbatim even when missing, `metadata?.tooltip` /
`metadata?.is_cited` via optional chaining). -/
def transformNode (n : RawNode) : Except String BuiltNode :=
  match n.label with
  | none => Except.error "TypeError: cannot read properties of undefined"
  | some lbl =>
      Except.ok
        { id := n.id, name := lbl, type := getNodeType lbl,
          citationUuid := n.citation_uuid,
          tooltip := n.metadata.bind RawNodeMetadata.tooltip,
          isCited := n.metadata.bind RawNodeMetadata.is_cited }

/-- `data.nodes.map(...)` with the first thrown TypeError propagated. -/
def transformNodes : List RawNode → Except String (List BuiltNode)
  | [] => Except.ok []
  | n :: ns =>
    match transformNode n with
    | Except.error e => Except.error e
    | Except.ok b =>
      match transformNodes ns with
      | Except.error e => Except.error e
      | Except.ok bs => Except.ok (b :: bs)

/-- The per-edge transform inside `data.edges.map(...)`:
`label: edge.label || edge.relation` (truthiness: a missing or empty label
falls back to the relation). No endpoint check of any kind. -/
def transformEdge (e : RawEdge) : BuiltLink :=
  { source := e.source, target := e.target,
    label :=
      match e.label with
      | some l => if l = "" then e.relation else l
      | none => e.relation }

/-- The `graphData` object built on each render of `KnowledgeGraph`. -/
def buildGraphData (p : RawPayload) : Except String BuiltGraph :=
  match transformNodes p.nodes with
  | Except.error e => Except.error e
  | Except.ok ns => Except.ok { nodes := ns, links := p.edges.map transformEdge }

/-! ## Query response handling (`handleSubmit` in page.tsx) -/

structure ChatMessage where
  role : String
  content : String
  citations : Option (List Citation)
  deriving Repr, DecidableEq

/-- The `/ask` request body built by `handleSubmit` (its complete field set). -/
structure AskRequest where
  query : String
  include_graph_data : Bool
  language : String
  input_language : String
  deriving Repr, DecidableEq

/-- `handleSubmit`'s request construction (page.tsx lines 43-48). -/
def buildAskRequest (query language inputLanguageState : String) : AskRequest :=
  { query := query, include_graph_data := true, language := language,
    input_language := if inputLanguageState = "Native" then language else "English" }

structure AskResponse where
  answer : String
  citations : Option (List Citation)
  graph_data : Option RawPayload
  deriving Repr, DecidableEq

/-- The page state touched by `handleSubmit`'s response path. -/
structure PageState where
  chatMessages : List ChatMessage
  graphData : Option RawPayload
  isLoading : Bool
  deriving Repr, DecidableEq

/-- `handleSubmit`'s handling of a parsed `/ask` response (page.tsx lines
51-75): append the assistant message, overwrite `graphData` whenever the
response carries a truthy `graph_data`, clear the loading flag. There is no
sequence token and no staleness check of any kind. -/
def applyAskResponse (st : PageState) (resp : AskResponse) : PageState :=
  let st1 : PageState :=
    { st with
      chatMessages := st.chatMessages ++
        [{ role := "assistant", content := resp.answer, citations := resp.citations }] }
  let st2 : PageState :=
    match resp.graph_data with
    | some g => { st1 with graphData := some g }
    | none => st1
  { st2 with isLoading := false }

/-! ## Focus effect (the auto-focus `useEffect` in KnowledgeGraph.tsx) -/

inductive CameraCmd where
  | centerAt (x y : Option ℚ) (durationMs : Nat)
  | zoom (level : ℚ) (durationMs : Nat)
  deriving Repr, DecidableEq

/-- A camera command together with the instant (ms, relative to the effect
run) at which its animation starts. -/
structure IssuedCmd where
  cmd : CameraCmd
  startMs : Nat
  deriving Repr, DecidableEq

/-- The auto-focus effect (KnowledgeGraph.tsx lines 48-56): when
`focusedNodeId` is truthy, look the node up in `data.nodes` by `id` only; if
found, synchronously issue `centerAt(node.x, node.y, 1000)` and
`zoom(6, 2000)` back to back — both animations start at the same instant 0
and run concurrently. A failed lookup issues nothing. -/
def focusEffect (focusedNodeId : Option String) (nodes : List RawNode) : List IssuedCmd :=
  match focusedNodeId with
  | none => []
  | some fid =>
      if fid = "" then []
      else
        match nodes.find? (fun n => n.id == some fid) with
        | some node =>
            [⟨CameraCmd.centerAt node.x node.y 1000, 0⟩, ⟨CameraCmd.zoom 6 2000, 0⟩]
        | none => []

/-! ## Render opacity policy (`nodeCanvasObject` in KnowledgeGraph.tsx) -/

/-- `node.name.includes('IPC')`. -/
def isIPCName (name : String) : Bool := strIncludes name "IPC"

/-- `node.name.includes('BNS') || node.name.includes('Bharatiya')`. -/
def isBNSName (name : String) : Bool :=
  strIncludes name "BNS" || strIncludes name "Bharatiya"

/-- The regime-filter dimming of `nodeCanvasObject` (lines 129-136): in mode
`IPC` a BNS-named node is dimmed to 0.1, in mode `BNS` an IPC-named node is
dimmed to 0.1, everything else keeps opacity 1. -/
def baseOpacity (regimeMode : Option String) (name : String) : ℚ :=
  match regimeMode with
  | none => 1
  | some mode =>
      if mode ≠ "" ∧ mode ≠ "Compare" then
        if mode = "IPC" ∧ isBNSName name then 1/10
        else if mode = "BNS" ∧ isIPCName name then 1/10
        else 1
      else 1

/-- The hover test of `nodeCanvasObject` (line 147):
`hoveredNode && hoveredNode === node.id`. -/
def isHoveredNode (hoveredNode : Option String) (nodeId : String) : Bool :=
  match hoveredNode with
  | some h => h != "" && h == nodeId
  | none => false

/-- The opacity with which the node circle is finally drawn: the hovered node
is forced back to full opacity (lines 147-151), otherwise the regime-filter
base opacity applies. -/
def renderedNodeOpacity (regimeMode hoveredNode : Option String)
    (nodeId name : String) : ℚ :=
  if isHoveredNode hoveredNode nodeId then 1 else baseOpacity regimeMode name

/-- Whether a node name matches the regime opposite to `mode`, by the same
substring tests the dimming logic uses (`isBNSName` / `isIPCName`). -/
def matchesOtherRegime (mode name : String) : Bool :=
  if mode = "IPC" then isBNSName name
  else if mode = "BNS" then isIPCName name
  else false

/-! ## Shared store and node-click handler -/

/-- The data of the zustand `useAppStore` (its single data field). -/
structure AppStoreState where
  activeNodeId : Option String
  deriving Repr, DecidableEq

/-- `setActiveNodeId`: `set({ activeNodeId: id })`. -/
def setActiveNodeId (id : Option String) (s : AppStoreState) : AppStoreState :=
  { s with activeNodeId := id }

/-- `handleNodeClick` (KnowledgeGraph.tsx lines 94-98): publish
`node.citationUuid` only when it is truthy (present and non-empty). -/
def handleNodeClick (citationUuid : Option String) (s : AppStoreState) : AppStoreState :=
  match citationUuid with
  | some u => if u ≠ "" then setActiveNodeId (some u) s else s
  | none => s

/-! ## Concrete inputs used by scenario theorems -/

/-- A citation carrying only the fields the resolver reads. -/
def mkNamedCitation (name uuid : String) : Citation :=
  { uuid := uuid, text := "", entity_name := some name, source_doc := "",
    page_number := 0, summary := "", score := 0, law_type := "" }

def c1Citations : List Citation :=
  [mkNamedCitation "Indian Contract Act" "u1", mkNamedCitation "Act" "u2"]

def c1Draft : String := "Under the Indian Contract Act, the Act applies."

/-! ## Helper lemmas about the entity map -/

theorem lookup_append_cases (l₁ l₂ : List (String × String)) (k : String) :
    (l₁ ++ l₂).lookup k =
      match l₁.lookup k with
      | some v => some v
      | none => l₂.lookup k := by
  induction l₁ with
  | nil => simp [List.lookup]
  | cons p l ih =>
    obtain ⟨a, b⟩ := p
    simp only [List.cons_append, List.lookup]
    cases h : k == a
    · simpa using ih
    · simp

theorem lookup_eq_none_iff_keys (m : List (String × String)) (k : String) :
    m.lookup k = none ↔ k ∉ m.map Prod.fst := by
  induction m with
  | nil => simp [List.lookup]
  | cons p l ih =>
    obtain ⟨a, b⟩ := p
    simp only [List.lookup, List.map_cons, List.mem_cons]
    cases h : k == a
    · have hne : ¬ k = a := by simpa using h
      simp [hne, ih]
    · have heq : k = a := by simpa using h
      simp [heq]

theorem lookup_insertEntity (m : List (String × String)) (c : Citation) (k : String) :
    (insertEntity m c).lookup k =
      match m.lookup k with
      | some v => some v
      | none =>
          if c.entity_name == some k && k != "" then some c.uuid else none := by
  cases hen : c.entity_name with
  | none =>
    simp only [insertEntity, hen]
    cases hm : m.lookup k <;> simp [hm]
  | some n =>
    simp only [insertEntity, hen]
    by_cases hcond : (n != "" && (m.lookup n).isNone) = true
    · rw [if_pos hcond]
      rw [lookup_append_cases]
      cases hm : m.lookup k with
      | some v => simp [hm]
      | none =>
        simp only [hm, List.lookup]
        cases hk : k == n
        · have hne : ¬ k = n := by simpa using hk
          have hne' : ¬ n = k := fun h => hne h.symm
          simp [hne']
        · have heq : k = n := by simpa using hk
          have hcond' : n ≠ "" ∧ List.lookup n m = none := by simpa using hcond
          simp [heq, hcond'.1]
    · rw [if_neg hcond]
      cases hm : m.lookup k with
      | some v => simp [hm]
      | none =>
        simp only [hm]
        by_cases heq : n = k
        · subst heq
          have hkempty : n = "" := by
            by_contra hne
            exact hcond (by simp [hne, hm])
          simp [hkempty]
        · simp [heq]

theorem lookup_foldl_insertEntity (cs : List Citation) (m : List (String × String))
    (k : String) :
    (cs.foldl insertEntity m).lookup k =
      match m.lookup k with
      | some v => some v
      | none =>
          (cs.find? (fun c => c.entity_name == some k && k != "")).map Citation.uuid := by
  induction cs generalizing m with
  | nil => cases hm : m.lookup k <;> simp [hm]
  | cons c cs ih =>
    simp only [List.foldl_cons]
    rw [ih, lookup_insertEntity]
    cases hm : m.lookup k with
    | some v => simp
    | none =>
      cases hp : (c.entity_name == some k && k != "") with
      | true => simp [List.find?_cons, hp]
      | false => simp [List.find?_cons, hp]

theorem keys_nodup_insertEntity (m : List (String × String)) (c : Citation)
    (h : (m.map Prod.fst).Nodup) : ((insertEntity m c).map Prod.fst).Nodup := by
  cases hen : c.entity_name with
  | none => simpa [insertEntity, hen] using h
  | some n =>
    simp only [insertEntity, hen]
    by_cases hcond : (n != "" && (m.lookup n).isNone) = true
    · rw [if_pos hcond]
      have hcond' : n ≠ "" ∧ List.lookup n m = none := by simpa using hcond
      have hn : n ∉ m.map Prod.fst := (lookup_eq_none_iff_keys m n).1 hcond'.2
      simp [List.nodup_append, h, hn]
    · rw [if_neg hcond]; exact h

theorem keys_nodup_foldl_insertEntity (cs : List Citation) (m : List (String × String))
    (h : (m.map Prod.fst).Nodup) : ((cs.foldl insertEntity m).map Prod.fst).Nodup := by
  induction cs generalizing m with
  | nil => exact h
  | cons c cs ih => exact ih _ (keys_nodup_insertEntity m c h)

/-! ## Claim theorems -/

/-- C1 (counterexample): on the claim's own scenario the resolver re-links
the word "Act" inside the visible label of the already-inserted span. The
output is "Under the [Indian Contract [Act](u2)](u1), the [Act](u2)
applies.", and in particular the span `[Indian Contract Act](u1)` the claim
requires never occurs in the output, so the embedded "Act" IS separately
re-linked inside the label. -/
theorem resolve_scenario_double_wraps :
    getProcessedText c1Draft c1Citations =
      "Under the [Indian Contract [Act](u2)](u1), the [Act](u2) applies." ∧
    strIncludes (getProcessedText c1Draft c1Citations) "[Indian Contract Act](u1)" = false := by
  constructor <;> decide

/-- C1 (amended): for the citation list and text of the scenario, the first
occurrence is wrapped as a span whose visible label itself receives a second
link for the embedded word "Act" (the sequential longest-first replacement
re-matches inside the inserted label), and the standalone trailing "Act" is
linked to u2: the resolver output is exactly
"Under the [Indian Contract [Act](u2)](u1), the [Act](u2) applies.". -/
theorem resolve_scenario_actual_output :
    getProcessedText c1Draft c1Citations =
      "Under the [Indian Contract [Act](u2)](u1), the [Act](u2) applies." := by
  decide

/-- C7: `getNodeType` is a total pure function into {law, section, case,
concept} whose rules apply in fixed order with first match winning on
case-insensitive substring tests; a label containing none of the twelve
markers classifies as `concept`, and a label containing " v. " but no law or
section marker classifies as `case'`. -/
theorem getNodeType_concept_and_case (s : String)
    (hlaw : ∀ m ∈ lawMarkers, strIncludes (toLowerStr s) m = false)
    (hsec : ∀ m ∈ sectionMarkers, strIncludes (toLowerStr s) m = false) :
    ((∀ m ∈ caseMarkers, strIncludes (toLowerStr s) m = false) →
        getNodeType s = NodeType.concept) ∧
    (strIncludes (toLowerStr s) " v. " = true → getNodeType s = NodeType.case') := by
  have ha := hlaw "act" (by simp [lawMarkers])
  have hb := hlaw "code" (by simp [lawMarkers])
  have hc := hlaw "bns" (by simp [lawMarkers])
  have hd := hlaw "constitution" (by simp [lawMarkers])
  have he := hlaw "bharatiya" (by simp [lawMarkers])
  have hf := hsec "section" (by simp [sectionMarkers])
  have hg := hsec "article" (by simp [sectionMarkers])
  have hh := hsec "order" (by simp [sectionMarkers])
  have hi := hsec "rule" (by simp [sectionMarkers])
  have hj := hsec "part" (by simp [sectionMarkers])
  refine ⟨fun hcase => ?_, fun hv => ?_⟩
  · have hk := hcase " v. " (by simp [caseMarkers])
    have hl := hcase " vs " (by simp [caseMarkers])
    simp [getNodeType, ha, hb, hc, hd, he, hf, hg, hh, hi, hj, hk, hl]
  · simp [getNodeType, ha, hb, hc, hd, he, hf, hg, hh, hi, hj, hv]

/-- C7 witness: "Maneka v. Union" contains no law or section marker and
contains " v. ", so it classifies as a case. -/
theorem getNodeType_concept_and_case_witness :
    getNodeType "Maneka v. Union" = NodeType.case' :=
  (getNodeType_concept_and_case "Maneka v. Union" (by decide) (by decide)).2 (by decide)

/-- C9: the built entity map is first-occurrence-wins: its keys are distinct
(each entity name occurs at most once), and looking up any name yields
exactly the uuid of the first citation in input order carrying that
(non-empty) name. -/
theorem entityMap_first_occurrence_wins (cs : List Citation) (name : String) :
    (buildEntityMap cs).lookup name =
      (cs.find? (fun c => c.entity_name == some name && name != "")).map Citation.uuid ∧
    ((buildEntityMap cs).map Prod.fst).Nodup := by
  constructor
  · simpa [buildEntityMap] using lookup_foldl_insertEntity cs [] name
  · exact keys_nodup_foldl_insertEntity cs [] (by simp)

/-! ## Graph-builder theorems (C2, C3) -/

/-- A payload whose single edge targets an id ("ghost") that no node carries. -/
def c2DanglingPayload : RawPayload :=
  { nodes := [{ id := some "n1", label := some "Indian Penal Code", type := some "law",
                citation_uuid := none, x := none, y := none, metadata := none }],
    edges := [{ source := "n1", target := "ghost", relation := "CITES", label := none }] }

/-- The snapshot the builder produces for `c2DanglingPayload`. -/
def c2BuiltGraph : BuiltGraph :=
  { nodes := [{ id := some "n1", name := "Indian Penal Code", type := NodeType.law,
                citationUuid := none, tooltip := none, isCited := none }],
    links := [{ source := "n1", target := "ghost", label := "CITES" }] }

/-- C2 (counterexample): the builder never checks edge endpoints. For the
payload whose edge targets the unknown id "ghost", the build succeeds and the
dangling edge is present in the built snapshot — it is not dropped, and no
dropped-edges diagnostic exists anywhere in the component. -/
theorem dangling_edge_kept_in_snapshot :
    buildGraphData c2DanglingPayload = Except.ok c2BuiltGraph ∧
    c2BuiltGraph.links = [{ source := "n1", target := "ghost", label := "CITES" }] := by
  constructor <;> rfl

/-- C2 (amended): edges are passed through verbatim with no endpoint
validation: whenever the build succeeds its links are exactly the payload's
edges transformed field-by-field, dangling edges included; nothing counts or
reports dropped edges. -/
theorem links_passed_through_verbatim (p : RawPayload) (g : BuiltGraph)
    (h : buildGraphData p = Except.ok g) :
    g.links = p.edges.map transformEdge := by
  unfold buildGraphData at h
  cases hn : transformNodes p.nodes with
  | error e => rw [hn] at h; exact absurd h (by simp)
  | ok ns =>
    rw [hn] at h
    cases h
    rfl

/-- C2 witness for the amended theorem, at the dangling-edge payload. -/
theorem links_passed_through_verbatim_witness :
    c2BuiltGraph.links = c2DanglingPayload.edges.map transformEdge :=
  links_passed_through_verbatim c2DanglingPayload c2BuiltGraph (by rfl)

/-- A structurally invalid payload: its only node is missing `id`. -/
def c3NoIdPayload : RawPayload :=
  { nodes := [{ id := none, label := some "Theft", type := none,
                citation_uuid := none, x := none, y := none, metadata := none }],
    edges := [] }

/-- C3 (counterexample): a payload whose node list is structurally invalid
(node missing `id`) is NOT rejected: the build returns no error and
materializes the snapshot containing the id-less node, so the previous
snapshot is not retained (page.tsx stores any truthy `graph_data`
unconditionally). -/
theorem invalid_node_list_not_rejected :
    buildGraphData c3NoIdPayload =
      Except.ok
        { nodes := [{ id := none, name := "Theft", type := NodeType.concept,
                      citationUuid := none, tooltip := none, isCited := none }],
          links := [] } := by
  rfl

theorem transformNodes_ok_iff (ns : List RawNode) :
    (∃ bs, transformNodes ns = Except.ok bs) ↔ ∀ n ∈ ns, n.label ≠ none := by
  induction ns with
  | nil => simp [transformNodes]
  | cons n ns ih =>
    simp only [transformNodes, List.mem_cons]
    cases hl : n.label with
    | none =>
      simp only [transformNode, hl]
      constructor
      · rintro ⟨bs, hbs⟩
        exact absurd hbs (by simp)
      · intro h
        exact absurd hl (h n (Or.inl rfl))
    | some l =>
      simp only [transformNode, hl]
      constructor
      · rintro ⟨bs, hbs⟩
        intro x hx
        rcases hx with hx | hx
        · subst hx; simp [hl]
        · cases hns : transformNodes ns with
          | error e => rw [hns] at hbs; exact absurd hbs (by simp)
          | ok bs' => exact (ih.1 ⟨bs', hns⟩) x hx
      · intro h
        obtain ⟨bs', hbs'⟩ := ih.2 (fun x hx => h x (Or.inr hx))
        exact ⟨_, by rw [hbs']⟩

/-- C3 (amended): the builder performs no structural validation: it succeeds
exactly when every node carries a `label` (a node missing `id` is
materialized as-is), and a missing `label` aborts the build as an uncaught
TypeError — not a graceful error return that retains the previous
snapshot. -/
theorem build_ok_iff_labels_present (p : RawPayload) :
    (∃ g, buildGraphData p = Except.ok g) ↔ ∀ n ∈ p.nodes, n.label ≠ none := by
  unfold buildGraphData
  constructor
  · rintro ⟨g, hg⟩
    cases hn : transformNodes p.nodes with
    | error e => rw [hn] at hg; exact absurd hg (by simp)
    | ok ns => exact (transformNodes_ok_iff p.nodes).1 ⟨ns, hn⟩
  · intro h
    obtain ⟨bs, hbs⟩ := (transformNodes_ok_iff p.nodes).2 h
    exact ⟨_, by rw [hbs]⟩

/-! ## Response-staleness theorems (C4) -/

def c4GraphFresh : RawPayload :=
  { nodes := [{ id := some "b1", label := some "BNS 103", type := none,
                citation_uuid := none, x := none, y := none, metadata := none }],
    edges := [] }

def c4GraphStale : RawPayload :=
  { nodes := [{ id := some "a1", label := some "IPC 302", type := none,
                citation_uuid := none, x := none, y := none, metadata := none }],
    edges := [] }

def c4InitState : PageState :=
  { chatMessages := [], graphData := none, isLoading := true }

def c4FreshResponse : AskResponse :=
  { answer := "fresh answer", citations := none, graph_data := some c4GraphFresh }

def c4StaleResponse : AskResponse :=
  { answer := "stale answer", citations := none, graph_data := some c4GraphStale }

/-- C4 (counterexample): `handleSubmit` attaches no sequence token (the
request body is exactly the four fields of `AskRequest`) and applies every
response unconditionally: when the response of a superseded first query
arrives after the newer query's response has been applied, it overwrites the
snapshot with the stale graph instead of being discarded. -/
theorem stale_response_overwrites_snapshot :
    (applyAskResponse (applyAskResponse c4InitState c4FreshResponse)
        c4StaleResponse).graphData = some c4GraphStale ∧
    c4GraphStale ≠ c4GraphFresh := by
  constructor <;> decide

/-- C4 (amended): there is no sequence token and no staleness guard: every
response carrying graph data overwrites the current snapshot when applied,
including responses of superseded requests. -/
theorem response_applied_unconditionally (st : PageState) (resp : AskResponse)
    (g : RawPayload) (h : resp.graph_data = some g) :
    (applyAskResponse st resp).graphData = some g := by
  simp [applyAskResponse, h]

/-- C4 witness for the amended theorem. -/
theorem response_applied_unconditionally_witness :
    (applyAskResponse c4InitState c4StaleResponse).graphData = some c4GraphStale :=
  response_applied_unconditionally c4InitState c4StaleResponse c4GraphStale rfl

/-! ## Focus-effect theorems (C5, C6) -/

def c5FocusNode : RawNode :=
  { id := some "n1", label := some "Culpable Homicide", type := none,
    citation_uuid := some "u9", x := some 3, y := some 4, metadata := none }

/-- C5 (counterexample): for a focus request whose target is present, the
effect issues `centerAt(x, y, 1000 ms)` and `zoom(6, 2000 ms)` in the same
synchronous run: both animations start at instant 0, so the zoom starts
1000 ms before the centering animation completes — there is no
Centering-then-Zooming sequencing. -/
theorem focus_zoom_starts_before_centering_completes :
    focusEffect (some "n1") [c5FocusNode] =
      [⟨CameraCmd.centerAt (some 3) (some 4) 1000, 0⟩,
       ⟨CameraCmd.zoom 6 2000, 0⟩] ∧
    (focusEffect (some "n1") [c5FocusNode]).map IssuedCmd.startMs = [0, 0] := by
  constructor <;> decide

/-- C5 (amended): for every focus request whose target node is present (by
id) in the current snapshot, the effect issues exactly the two camera
commands `centerAt(node.x, node.y, 1000 ms)` and `zoom(6, 2000 ms)`,
back-to-back in one synchronous run: both start immediately and run
concurrently (the zoom duration is the longer of the two, but the zoom does
not wait for centering to complete and no Idle/Centering/Zooming state
machine exists). -/
theorem focus_issues_both_commands (fid : String) (nodes : List RawNode)
    (node : RawNode) (hfid : fid ≠ "")
    (hfind : nodes.find? (fun n => n.id == some fid) = some node) :
    focusEffect (some fid) nodes =
      [⟨CameraCmd.centerAt node.x node.y 1000, 0⟩, ⟨CameraCmd.zoom 6 2000, 0⟩] := by
  simp [focusEffect, hfid, hfind]

/-- C5 witness for the amended theorem. -/
theorem focus_issues_both_commands_witness :
    focusEffect (some "n1") [c5FocusNode] =
      [⟨CameraCmd.centerAt c5FocusNode.x c5FocusNode.y 1000, 0⟩,
       ⟨CameraCmd.zoom 6 2000, 0⟩] :=
  focus_issues_both_commands "n1" [c5FocusNode] c5FocusNode (by decide) (by decide)

/-- C6: a focus request whose id matches no node's `id` or `citation_uuid`
in the current snapshot is a silent no-op: the effect issues no camera
command at all (no error, no state change, no centering). -/
theorem focus_missing_node_noop (fid : String) (nodes : List RawNode)
    (h : ∀ n ∈ nodes, n.id ≠ some fid ∧ n.citation_uuid ≠ some fid) :
    focusEffect (some fid) nodes = [] := by
  unfold focusEffect
  by_cases hf : fid = ""
  · simp [hf]
  · have hfind : nodes.find? (fun n => n.id == some fid) = none := by
      rw [List.find?_eq_none]
      intro n hn
      simpa using (h n hn).1
    simp [hf, hfind]

/-- C6 witness: `focus("missing-id")` on an empty, just-loaded graph issues
nothing. -/
theorem focus_missing_node_noop_witness :
    focusEffect (some "missing-id") ([] : List RawNode) = [] :=
  focus_missing_node_noop "missing-id" [] (by simp)

/-! ## Render-opacity theorems (C8) -/

theorem baseOpacity_some (mode name : String) :
    baseOpacity (some mode) name =
      if mode ≠ "" ∧ mode ≠ "Compare" then
        if mode = "IPC" ∧ isBNSName name then 1/10
        else if mode = "BNS" ∧ isIPCName name then 1/10
        else 1
      else 1 := rfl

/-- C8: under an exclusive regime filter ("IPC" or "BNS"), a non-hovered node
whose name matches the other regime's naming convention is dimmed to
opacity 1/10 ≤ 0.15, every other non-hovered node keeps full opacity 1, and
the hovered node is always forced to full opacity regardless of the
filter. -/
theorem regime_filter_opacity_policy (mode : String)
    (hmode : mode = "IPC" ∨ mode = "BNS") (hovered : Option String)
    (nodeId name : String) :
    (isHoveredNode hovered nodeId = true →
        renderedNodeOpacity (some mode) hovered nodeId name = 1) ∧
    (isHoveredNode hovered nodeId = false →
        (matchesOtherRegime mode name = true →
            renderedNodeOpacity (some mode) hovered nodeId name ≤ 15/100) ∧
        (matchesOtherRegime mode name = false →
            renderedNodeOpacity (some mode) hovered nodeId name = 1)) := by
  rcases hmode with h | h <;> subst h
  · refine ⟨fun hh => ?_, fun hh => ⟨fun hm => ?_, fun hm => ?_⟩⟩
    · unfold renderedNodeOpacity
      rw [if_pos hh]
    · simp [matchesOtherRegime] at hm
      unfold renderedNodeOpacity
      rw [if_neg (by simp [hh])]
      rw [baseOpacity_some]
      rw [if_pos (by decide), if_pos ⟨rfl, hm⟩]
      norm_num
    · simp [matchesOtherRegime] at hm
      unfold renderedNodeOpacity
      rw [if_neg (by simp [hh])]
      rw [baseOpacity_some]
      rw [if_pos (by decide), if_neg (by simp [hm]),
        if_neg (fun hc => absurd hc.1 (by decide))]
  · refine ⟨fun hh => ?_, fun hh => ⟨fun hm => ?_, fun hm => ?_⟩⟩
    · unfold renderedNodeOpacity
      rw [if_pos hh]
    · simp [matchesOtherRegime] at hm
      unfold renderedNodeOpacity
      rw [if_neg (by simp [hh])]
      rw [baseOpacity_some]
      rw [if_pos (by decide), if_neg (fun hc => absurd hc.1 (by decide)),
        if_pos ⟨rfl, hm⟩]
      norm_num
    · simp [matchesOtherRegime] at hm
      unfold renderedNodeOpacity
      rw [if_neg (by simp [hh])]
      rw [baseOpacity_some]
      rw [if_pos (by decide), if_neg (fun hc => absurd hc.1 (by decide)),
        if_neg (by simp [hm])]

/-- C8 witness: in IPC mode a BNS-named node is dimmed to at most 0.15. -/
theorem regime_filter_opacity_policy_witness :
    renderedNodeOpacity (some "IPC") none "n1" "BNS 103" ≤ 15/100 ∧
    renderedNodeOpacity (some "IPC") none "n1" "IPC 302" = 1 ∧
    renderedNodeOpacity (some "IPC") (some "n1") "n1" "BNS 103" = 1 :=
  ⟨((regime_filter_opacity_policy "IPC" (Or.inl rfl) none "n1" "BNS 103").2
      (by decide)).1 (by decide),
   ((regime_filter_opacity_policy "IPC" (Or.inl rfl) none "n1" "IPC 302").2
      (by decide)).2 (by decide),
   (regime_filter_opacity_policy "IPC" (Or.inl rfl) (some "n1") "n1" "BNS 103").1
      (by decide)⟩

/-! ## Click-handler frame theorem (C10) -/

/-- C10: clicking a node publishes to the shared active-citation state only
when the node carries a citationUuid: a click on a node without one leaves
the whole store state (its only field `activeNodeId`) exactly unchanged,
and a click on a node with a non-empty citationUuid sets exactly that
field to it. -/
theorem click_publishes_only_when_cited (s : AppStoreState) :
    handleNodeClick none s = s ∧
    (∀ u : String, u ≠ "" → handleNodeClick (some u) s = { activeNodeId := some u }) := by
  refine ⟨rfl, fun u hu => ?_⟩
  simp [handleNodeClick, setActiveNodeId, hu]

/-- C10 witness: a click without a citationUuid leaves the store unchanged;
a click with one publishes it. -/
theorem click_publishes_only_when_cited_witness :
    handleNodeClick none { activeNodeId := some "u0" } = { activeNodeId := some "u0" } ∧
    handleNodeClick (some "u7") { activeNodeId := some "u0" } = { activeNodeId := some "u7" } :=
  ⟨(click_publishes_only_when_cited { activeNodeId := some "u0" }).1,
   (click_publishes_only_when_cited { activeNodeId := some "u0" }).2 "u7" (by decide)⟩

end DharmaSetu
